import Mathlib

/-!
Verification of the vendor-unification layer of `alexisbouchez/ai`:
a shallow embedding of the unified data model (`provider` package), the
per-vendor request mappers, response mappers and stream decoders
(`openai`, `mistral`, `anthropic`, `ollama` packages), together with
theorems settling the specified properties.

Conventions of the embedding:
- Go strings are `String`, Go `int`/`int64` are `Int`, Go pointers /
  nullable fields are `Option`, Go slices are `List`, Go `error` values
  are `Option String` (`none` = nil error). The `*float64` sampling
  knobs (temperature, topP, penalties) are only ever passed through
  verbatim by this layer, never computed with, so their payload is
  represented by an opaque numeric carrier (`Int`).
- JSON encoding/decoding (package `encoding/json`) is an external
  collaborator; decoded `any` values are an opaque `Jv` tree and the
  decode/encode primitives are passed in as function parameters, so all
  theorems quantify over them.
- A vendor's SSE line is represented by what the Go loop body can
  distinguish about it after framing and `json.Unmarshal`: not a
  `data: `-framed line, an undecodable data payload, the `[DONE]`
  sentinel (where the vendor checks for it), or a decoded event struct.
- Struct fields carry Go zero values as Lean default field values, so
  literal construction mirrors Go composite literals.
-/

namespace Provider

/-- Opaque JSON value, the image of Go `any` after `encoding/json` decoding. -/
inductive Jv where
  | null : Jv
  | bool (b : Bool) : Jv
  | str (s : String) : Jv
  | num (n : Int) : Jv
  deriving DecidableEq

/-- `provider.Role` is a Go string type (`type Role string`); arbitrary
strings are valid values, with four named constants. -/
abbrev Role := String

/-- `provider.RoleSystem`. -/
def roleSystem : Role := "system"

/-- `provider.RoleUser`. -/
def roleUser : Role := "user"

/-- `provider.RoleAssistant`. -/
def roleAssistant : Role := "assistant"

/-- `provider.RoleTool`. -/
def roleTool : Role := "tool"

/-- `provider.FunctionCall`. -/
structure FunctionCall where
  name : String := ""
  arguments : String := ""
  deriving DecidableEq

/-- `provider.ToolCall`. -/
structure ToolCall where
  id : String := ""
  type : String := ""
  function : FunctionCall := {}
  index : Int := 0
  deriving DecidableEq

/-- `provider.Message`. -/
structure Message where
  role : Role
  content : String := ""
  toolCalls : List ToolCall := []
  toolCallId : String := ""
  name : String := ""
  deriving DecidableEq

/-- `provider.Function` (tool declaration payload); `Parameters` is an
opaque decoded JSON object, kept as an association list of `Jv`. -/
structure Func where
  name : String := ""
  description : String := ""
  parameters : List (String × Jv) := []
  strict : Bool := false
  deriving DecidableEq

/-- `provider.Tool`. -/
structure Tool where
  type : String := ""
  function : Func := {}
  deriving DecidableEq

/-- `provider.ToolChoice`. -/
inductive ToolChoice where
  | auto
  | none
  | any
  | required
  deriving DecidableEq

/-- `string(ToolChoice)`: the underlying literal. -/
def ToolChoice.toStr : ToolChoice → String
  | .auto => "auto"
  | .none => "none"
  | .any => "any"
  | .required => "required"

/-- `provider.ChatRequest`. -/
structure ChatRequest where
  messages : List Message := []
  model : String := ""
  temperature : Option Int := none
  topP : Option Int := none
  maxTokens : Option Int := none
  stream : Bool := false
  stop : List String := []
  tools : List Tool := []
  toolChoice : Option ToolChoice := none
  presencePenalty : Option Int := none
  frequencyPenalty : Option Int := none
  randomSeed : Option Int := none
  deriving DecidableEq

/-- `provider.Usage`. -/
structure Usage where
  promptTokens : Int := 0
  completionTokens : Int := 0
  totalTokens : Int := 0
  deriving DecidableEq

/-- `provider.Choice`. -/
structure Choice where
  index : Int := 0
  message : Message
  finishReason : String := ""
  deriving DecidableEq

/-- `provider.ChatResponse`. -/
structure ChatResponse where
  id : String := ""
  object : String := ""
  created : Int := 0
  model : String := ""
  choices : List Choice := []
  usage : Usage := {}
  deriving DecidableEq

/-- `provider.Delta`. -/
structure Delta where
  content : String := ""
  toolCalls : List ToolCall := []
  deriving DecidableEq

/-- `provider.StreamEvent`; `err : Option String` models the Go `error`
field (`none` = nil). -/
structure StreamEvent where
  delta : Delta := {}
  finishReason : String := ""
  err : Option String := none
  deriving DecidableEq

/-- `provider.StreamReader` state. The events channel is modelled as the
list of events the producer will still deliver before closing the
channel (`pending`); `done` and `err` are the reader's fields. -/
structure Reader where
  pending : List StreamEvent := []
  done : Bool := false
  err : Option String := none
  deriving DecidableEq

/-- Outcome of one `Recv` call: a delivered event with nil error, a
delivered error event together with its non-nil error, or the sticky
`ErrStreamClosed` outcome. -/
inductive RecvResult where
  | ok (e : StreamEvent)
  | errEvent (e : StreamEvent) (msg : String)
  | closed
  deriving DecidableEq

/-- `provider.StreamReader.Recv`. `if s.done` returns the closed error;
a receive on the closed (exhausted) channel sets `done` and returns the
closed error; an event with non-nil `Err` stores it and returns it. -/
def recv (r : Reader) : RecvResult × Reader :=
  if r.done then (.closed, r)
  else
    match r.pending with
    | [] => (.closed, { r with done := true })
    | e :: rest =>
      match e.err with
      | some m => (.errEvent e m, { r with pending := rest, err := some m })
      | none => (.ok e, { r with pending := rest })

/-- Reader state after `n` further `Recv` calls. -/
def recvIter (n : Nat) (r : Reader) : Reader :=
  match n with
  | 0 => r
  | n + 1 => recvIter n (recv r).2

end Provider

namespace CloseHook

/-!
`StreamReader.Close` runs the stored close callback unconditionally
(`if s.close != nil { s.close() }`; every constructor passes a non-nil
callback). The callbacks differ per vendor:
- openai / mistral / anthropic: `func() { resp.Body.Close() }` — closing
  an `http` response body again is a documented no-op, never a panic;
- ollama: `func() { close(done) }` — Go panics on `close` of an
  already-closed channel.
A hook is modelled as a function from the resource's closed-flag to
`Option Bool`: `some` is the new flag, `none` is a runtime panic.
-/

/-- `resp.Body.Close()` as a close hook: always succeeds, leaves the
body closed. -/
def bodyCloseHook : Bool → Option Bool :=
  fun _ => some true

/-- `close(done)` as a close hook: panics (Go runtime: close of closed
channel) when the channel is already closed. -/
def ollamaCloseHook : Bool → Option Bool :=
  fun closed => if closed then none else some true

/-- `StreamReader.Close`: runs the hook on the current resource state. -/
def readerClose (hook : Bool → Option Bool) (s : Bool) : Option Bool :=
  hook s

/-- Two sequential `Close` calls. -/
def closeTwice (hook : Bool → Option Bool) (s : Bool) : Option Bool :=
  (readerClose hook s).bind (readerClose hook)

end CloseHook

namespace Ollama

/-- The `ollama` provider struct: it has no API-key field at all; the
HTTP client is opaque (type parameter). -/
structure OllamaProvider (Client : Type) where
  baseURL : String
  model : String
  httpClient : Client

/-- `ollama.WithAPIKey`: the key parameter is dropped, the receiver is
returned unchanged. -/
def withAPIKey {Client : Type} (_key : String) (o : OllamaProvider Client) :
    OllamaProvider Client :=
  o

end Ollama

namespace Decode

/-- Generic driver for a vendor stream-decoding goroutine: one Go loop
iteration per input line; the step returns the events it sends on the
channel and `none` when the goroutine returns early (stopping the
loop). End of input ends the loop (`scanner.Scan()` false). -/
def runDecoder {σ Line : Type} (step : σ → Line → List Provider.StreamEvent × Option σ) :
    σ → List Line → List Provider.StreamEvent
  | _, [] => []
  | s, l :: rest =>
    match step s l with
    | (evs, none) => evs
    | (evs, some s') => evs ++ runDecoder step s' rest

theorem runDecoder_forall {σ Line : Type}
    (step : σ → Line → List Provider.StreamEvent × Option σ)
    (P : Provider.StreamEvent → Prop)
    (hstep : ∀ s l, ∀ e ∈ (step s l).1, P e) :
    ∀ s ls, ∀ e ∈ runDecoder step s ls, P e := by
  intro s ls
  induction ls generalizing s with
  | nil => intro e he; simp [runDecoder] at he
  | cons l rest ih =>
    intro e he
    rcases hstep' : step s l with ⟨evs, s'?⟩
    cases s'? with
    | none =>
      have heq : runDecoder step s (l :: rest) = evs := by
        simp [runDecoder, hstep']
      rw [heq] at he
      exact hstep s l e (by rw [hstep']; exact he)
    | some s' =>
      have heq : runDecoder step s (l :: rest) = evs ++ runDecoder step s' rest := by
        simp [runDecoder, hstep']
      rw [heq] at he
      rcases List.mem_append.mp he with he | he
      · exact hstep s l e (by rw [hstep']; exact he)
      · exact ih s' e he

end Decode

namespace Openai

open Provider

/-- `openaiFunctionCall`. -/
structure OpenaiFunctionCall where
  name : String := ""
  arguments : String := ""
  deriving DecidableEq

/-- `openaiToolCall`. -/
structure OpenaiToolCall where
  id : String := ""
  type : String := ""
  function : OpenaiFunctionCall := {}
  index : Int := 0
  deriving DecidableEq

/-- `openaiFunction`. -/
structure OpenaiFunction where
  name : String := ""
  description : String := ""
  parameters : List (String × Jv) := []
  strict : Bool := false
  deriving DecidableEq

/-- `openaiTool`. -/
structure OpenaiTool where
  type : String := ""
  function : OpenaiFunction := {}
  deriving DecidableEq

/-- `openaiMessage`. -/
structure OpenaiMessage where
  role : String := ""
  content : Option String := none
  toolCalls : List OpenaiToolCall := []
  toolCallId : String := ""
  name : String := ""
  deriving DecidableEq

/-- `openaiToolResultMessage`. -/
structure OpenaiToolResultMessage where
  role : String := ""
  content : String := ""
  toolCallId : String := ""
  deriving DecidableEq

/-- One element of the request's `Messages []any` slice: the mapper puts
either an `openaiToolResultMessage` or an `openaiMessage` there. -/
inductive OpenaiWireMsg where
  | toolResult (m : OpenaiToolResultMessage)
  | msg (m : OpenaiMessage)
  deriving DecidableEq

/-- `openaiChatCompletionRequest`. -/
structure OpenaiChatCompletionRequest where
  model : String := ""
  messages : List OpenaiWireMsg := []
  temperature : Option Int := none
  topP : Option Int := none
  maxTokens : Option Int := none
  stream : Bool := false
  stop : List String := []
  tools : List OpenaiTool := []
  toolChoice : Option String := none
  presencePenalty : Option Int := none
  frequencyPenalty : Option Int := none
  deriving DecidableEq

/-- `openaiUsage`. -/
structure OpenaiUsage where
  promptTokens : Int := 0
  completionTokens : Int := 0
  totalTokens : Int := 0
  deriving DecidableEq

/-- `openaiChoice`. -/
structure OpenaiChoice where
  index : Int := 0
  message : OpenaiMessage := {}
  finishReason : String := ""
  deriving DecidableEq

/-- `openaiChatCompletionResponse`. -/
structure OpenaiChatCompletionResponse where
  id : String := ""
  object : String := ""
  created : Int := 0
  model : String := ""
  choices : List OpenaiChoice := []
  usage : OpenaiUsage := {}
  deriving DecidableEq

/-- `openaiDeltaMessage`. -/
structure OpenaiDeltaMessage where
  role : String := ""
  content : String := ""
  toolCalls : List OpenaiToolCall := []
  deriving DecidableEq

/-- `openaiStreamChoice`. -/
structure OpenaiStreamChoice where
  index : Int := 0
  delta : OpenaiDeltaMessage := {}
  finishReason : String := ""
  deriving DecidableEq

/-- `openaiStreamChunk`. -/
structure OpenaiStreamChunk where
  id : String := ""
  object : String := ""
  created : Int := 0
  model : String := ""
  choices : List OpenaiStreamChoice := []
  deriving DecidableEq

/-- Body of the per-message loop of `toOpenAIRequest`
(`string(msg.Role)` is the identity on the underlying string). -/
def toOpenaiWireMsg (msg : Message) : OpenaiWireMsg :=
  if msg.role = roleTool then
    .toolResult { role := msg.role, content := msg.content,
                  toolCallId := msg.toolCallId }
  else
    .msg { role := msg.role
           content := if msg.content = "" then none else some msg.content
           toolCallId := msg.toolCallId
           name := msg.name
           toolCalls := msg.toolCalls.map (fun tc =>
             { id := tc.id
               type := if tc.type = "" then "function" else tc.type
               index := tc.index
               function := { name := tc.function.name,
                             arguments := tc.function.arguments } }) }

/-- `(*openai).toOpenAIRequest`. -/
def toOpenAIRequest (req : ChatRequest) (model : String) :
    OpenaiChatCompletionRequest :=
  { model := model
    messages := req.messages.map toOpenaiWireMsg
    temperature := req.temperature
    topP := req.topP
    maxTokens := req.maxTokens
    stream := req.stream
    stop := req.stop
    tools := req.tools.map (fun t =>
      { type := t.type
        function := { name := t.function.name
                      description := t.function.description
                      parameters := t.function.parameters
                      strict := t.function.strict } })
    toolChoice := req.toolChoice.map ToolChoice.toStr
    presencePenalty := req.presencePenalty
    frequencyPenalty := req.frequencyPenalty }

/-- `(*openai).toProviderResponse`. -/
def toProviderResponse (resp : OpenaiChatCompletionResponse) : ChatResponse :=
  { id := resp.id
    object := resp.object
    created := resp.created
    model := resp.model
    choices := resp.choices.map (fun c =>
      { index := c.index
        message :=
          { role := c.message.role
            content := match c.message.content with
              | some s => s
              | none => ""
            toolCalls := c.message.toolCalls.map (fun tc =>
              { id := tc.id
                type := if tc.type = "" then "function" else tc.type
                index := tc.index
                function := { name := tc.function.name,
                              arguments := tc.function.arguments } })
            toolCallId := c.message.toolCallId
            name := c.message.name }
        finishReason := c.finishReason })
    usage := { promptTokens := resp.usage.promptTokens
               completionTokens := resp.usage.completionTokens
               totalTokens := resp.usage.totalTokens } }

/-- One scanned line as the openai stream goroutine distinguishes it:
no `data: ` framing; the `[DONE]` sentinel; a data payload on which
`json.Unmarshal` into `openaiStreamChunk` fails; or a decoded chunk. -/
inductive OLine where
  | noData
  | done
  | bad
  | chunk (c : OpenaiStreamChunk)
  deriving DecidableEq

/-- One iteration of the openai stream goroutine loop. -/
def oStep (s : Unit) (l : OLine) : List StreamEvent × Option Unit :=
  match l with
  | .noData => ([], some s)
  | .done => ([], none)
  | .bad => ([{ err := some "failed to parse chunk" }], none)
  | .chunk c =>
    match c.choices with
    | [] => ([], some s)
    | choice :: _ =>
      ([{ delta := { content := choice.delta.content
                     toolCalls := choice.delta.toolCalls.map (fun tc =>
                       { id := tc.id
                         type := tc.type
                         index := tc.index
                         function := { name := tc.function.name,
                                       arguments := tc.function.arguments } }) }
          finishReason := choice.finishReason }], some s)

/-- Full event sequence of the openai stream decoder on a line list. -/
def oDecode (ls : List OLine) : List StreamEvent :=
  Decode.runDecoder oStep () ls

end Openai

namespace Mistral

open Provider

/-- `mistralFunctionCall`. -/
structure MistralFunctionCall where
  name : String := ""
  arguments : String := ""
  deriving DecidableEq

/-- `mistralToolCall`. -/
structure MistralToolCall where
  id : String := ""
  type : String := ""
  function : MistralFunctionCall := {}
  index : Int := 0
  deriving DecidableEq

/-- `mistralFunction`. -/
structure MistralFunction where
  name : String := ""
  description : String := ""
  parameters : List (String × Jv) := []
  strict : Bool := false
  deriving DecidableEq

/-- `mistralTool`. -/
structure MistralTool where
  type : String := ""
  function : MistralFunction := {}
  deriving DecidableEq

/-- `mistralMessage`. -/
structure MistralMessage where
  role : String := ""
  content : Option String := none
  toolCalls : List MistralToolCall := []
  toolCallId : String := ""
  name : String := ""
  deriving DecidableEq

/-- `mistralToolResultMessage` (unlike openai's, it also carries `Name`). -/
structure MistralToolResultMessage where
  role : String := ""
  content : String := ""
  toolCallId : String := ""
  name : String := ""
  deriving DecidableEq

/-- One element of the request's `Messages []any` slice. -/
inductive MistralWireMsg where
  | toolResult (m : MistralToolResultMessage)
  | msg (m : MistralMessage)
  deriving DecidableEq

/-- `mistralChatCompletionRequest`. -/
structure MistralChatCompletionRequest where
  model : String := ""
  messages : List MistralWireMsg := []
  temperature : Option Int := none
  topP : Option Int := none
  maxTokens : Option Int := none
  stream : Bool := false
  stop : List String := []
  randomSeed : Option Int := none
  tools : List MistralTool := []
  toolChoice : Option String := none
  presencePenalty : Option Int := none
  frequencyPenalty : Option Int := none
  deriving DecidableEq

/-- `mistralUsage`. -/
structure MistralUsage where
  promptTokens : Int := 0
  completionTokens : Int := 0
  totalTokens : Int := 0
  deriving DecidableEq

/-- `mistralChoice`. -/
structure MistralChoice where
  index : Int := 0
  message : MistralMessage := {}
  finishReason : String := ""
  deriving DecidableEq

/-- `mistralChatCompletionResponse`. -/
structure MistralChatCompletionResponse where
  id : String := ""
  object : String := ""
  created : Int := 0
  model : String := ""
  choices : List MistralChoice := []
  usage : MistralUsage := {}
  deriving DecidableEq

/-- `mistralDeltaMessage`. -/
structure MistralDeltaMessage where
  role : String := ""
  content : String := ""
  toolCalls : List MistralToolCall := []
  deriving DecidableEq

/-- `mistralStreamChoice`. -/
structure MistralStreamChoice where
  index : Int := 0
  delta : MistralDeltaMessage := {}
  finishReason : String := ""
  deriving DecidableEq

/-- `mistralStreamChunk`. -/
structure MistralStreamChunk where
  id : String := ""
  object : String := ""
  created : Int := 0
  model : String := ""
  choices : List MistralStreamChoice := []
  deriving DecidableEq

/-- Body of the per-message loop of `toMistralRequest`. -/
def toMistralWireMsg (msg : Message) : MistralWireMsg :=
  if msg.role = roleTool then
    .toolResult { role := msg.role, content := msg.content,
                  toolCallId := msg.toolCallId, name := msg.name }
  else
    .msg { role := msg.role
           content := if msg.content = "" then none else some msg.content
           toolCallId := msg.toolCallId
           name := msg.name
           toolCalls := msg.toolCalls.map (fun tc =>
             { id := tc.id
               type := if tc.type = "" then "function" else tc.type
               index := tc.index
               function := { name := tc.function.name,
                             arguments := tc.function.arguments } }) }

/-- `(*mistral).toMistralRequest`. -/
def toMistralRequest (req : ChatRequest) (model : String) :
    MistralChatCompletionRequest :=
  { model := model
    messages := req.messages.map toMistralWireMsg
    temperature := req.temperature
    topP := req.topP
    maxTokens := req.maxTokens
    stream := req.stream
    stop := req.stop
    randomSeed := req.randomSeed
    tools := req.tools.map (fun t =>
      { type := t.type
        function := { name := t.function.name
                      description := t.function.description
                      parameters := t.function.parameters
                      strict := t.function.strict } })
    toolChoice := req.toolChoice.map ToolChoice.toStr
    presencePenalty := req.presencePenalty
    frequencyPenalty := req.frequencyPenalty }

/-- `(*mistral).toProviderResponse`. -/
def toProviderResponse (resp : MistralChatCompletionResponse) : ChatResponse :=
  { id := resp.id
    object := resp.object
    created := resp.created
    model := resp.model
    choices := resp.choices.map (fun c =>
      { index := c.index
        message :=
          { role := c.message.role
            content := match c.message.content with
              | some s => s
              | none => ""
            toolCalls := c.message.toolCalls.map (fun tc =>
              { id := tc.id
                type := if tc.type = "" then "function" else tc.type
                index := tc.index
                function := { name := tc.function.name,
                              arguments := tc.function.arguments } })
            toolCallId := c.message.toolCallId
            name := c.message.name }
        finishReason := c.finishReason })
    usage := { promptTokens := resp.usage.promptTokens
               completionTokens := resp.usage.completionTokens
               totalTokens := resp.usage.totalTokens } }

/-- One scanned line as the mistral stream goroutine distinguishes it. -/
inductive MLine where
  | noData
  | done
  | bad
  | chunk (c : MistralStreamChunk)
  deriving DecidableEq

/-- One iteration of the mistral stream goroutine loop. -/
def mStep (s : Unit) (l : MLine) : List StreamEvent × Option Unit :=
  match l with
  | .noData => ([], some s)
  | .done => ([], none)
  | .bad => ([{ err := some "failed to parse chunk" }], none)
  | .chunk c =>
    match c.choices with
    | [] => ([], some s)
    | choice :: _ =>
      ([{ delta := { content := choice.delta.content
                     toolCalls := choice.delta.toolCalls.map (fun tc =>
                       { id := tc.id
                         type := tc.type
                         index := tc.index
                         function := { name := tc.function.name,
                                       arguments := tc.function.arguments } }) }
          finishReason := choice.finishReason }], some s)

/-- Full event sequence of the mistral stream decoder on a line list. -/
def mDecode (ls : List MLine) : List StreamEvent :=
  Decode.runDecoder mStep () ls

end Mistral

namespace Anthropic

open Provider

/-- `defaultMaxTokens`. -/
def defaultMaxTokens : Int := 8192

/-- `anthropicContent`; `input : Option Jv` is the decoded `any` value
(`none` = Go nil). -/
structure AnthropicContent where
  type : String := ""
  text : String := ""
  id : String := ""
  name : String := ""
  input : Option Jv := none
  toolUseId : String := ""
  content : String := ""
  deriving DecidableEq

/-- `anthropicMessage`. -/
structure AnthropicMessage where
  role : String := ""
  content : List AnthropicContent := []
  deriving DecidableEq

/-- `anthropicTool`. -/
structure AnthropicTool where
  name : String := ""
  description : String := ""
  inputSchema : List (String × Jv) := []
  deriving DecidableEq

/-- `anthropicMessageRequest`. -/
structure AnthropicMessageRequest where
  model : String := ""
  messages : List AnthropicMessage := []
  system : String := ""
  maxTokens : Int := 0
  stream : Bool := false
  tools : List AnthropicTool := []
  deriving DecidableEq

/-- `anthropicUsage`. -/
structure AnthropicUsage where
  inputTokens : Int := 0
  outputTokens : Int := 0
  deriving DecidableEq

/-- `anthropicMessageResponse`. -/
structure AnthropicMessageResponse where
  id : String := ""
  type : String := ""
  role : String := ""
  content : List AnthropicContent := []
  model : String := ""
  stopReason : String := ""
  stopSequence : String := ""
  usage : AnthropicUsage := {}
  deriving DecidableEq

/-- `anthropicDelta` (stream event payload). -/
structure AnthropicDelta where
  type : String := ""
  text : String := ""
  partialJson : String := ""
  stopReason : String := ""
  deriving DecidableEq

/-- `anthropicContentBlock`. -/
structure AnthropicContentBlock where
  type : String := ""
  id : String := ""
  name : String := ""
  input : Option Jv := none
  text : String := ""
  deriving DecidableEq

/-- `anthropicStreamEvent`. -/
structure AnthropicStreamEvent where
  type : String := ""
  index : Option Int := none
  delta : Option AnthropicDelta := none
  contentBlock : Option AnthropicContentBlock := none
  message : Option AnthropicMessageResponse := none
  deriving DecidableEq

/-- The per-message loop of `toAnthropicRequest`, threading the
`systemPrompt` and `messages` accumulators; `parse` models
`json.Unmarshal` of a tool call's argument text into `any` (`none` =
decode failure, leaving the input nil). -/
def messagesLoop (parse : String → Option Jv) (sys : String)
    (acc : List AnthropicMessage) : List Message → String × List AnthropicMessage
  | [] => (sys, acc)
  | msg :: rest =>
    match msg.role with
    | "system" => messagesLoop parse msg.content acc rest
    | "user" =>
      messagesLoop parse sys
        (acc ++ [{ role := "user", content := [{ type := "text", text := msg.content }] }])
        rest
    | "assistant" =>
      let content :=
        (if msg.content = "" then [] else
          [({ type := "text", text := msg.content } : AnthropicContent)]) ++
        msg.toolCalls.map (fun tc =>
          { type := "tool_use"
            id := tc.id
            name := tc.function.name
            input := if tc.function.arguments = "" then none
                     else parse tc.function.arguments })
      if content.length > 0 then
        messagesLoop parse sys (acc ++ [{ role := "assistant", content := content }]) rest
      else
        messagesLoop parse sys acc rest
    | "tool" =>
      messagesLoop parse sys
        (acc ++ [{ role := "user",
                   content := [{ type := "tool_result", toolUseId := msg.toolCallId,
                                 content := msg.content }] }])
        rest
    | _ => messagesLoop parse sys acc rest

/-- `(*anthropic).toAnthropicRequest`. -/
def toAnthropicRequest (parse : String → Option Jv) (req : ChatRequest)
    (model : String) : AnthropicMessageRequest :=
  let sysMsgs := messagesLoop parse "" [] req.messages
  { model := model
    messages := sysMsgs.2
    system := sysMsgs.1
    maxTokens := match req.maxTokens with
      | some v => v
      | none => defaultMaxTokens
    tools := req.tools.map (fun t =>
      { name := t.function.name
        description := t.function.description
        inputSchema := t.function.parameters }) }

/-- The content-block loop of `(*anthropic).toProviderResponse`,
accumulating concatenated text and the tool calls; `i` is the block's
position (`for i, c := range resp.Content`); `enc` models
`json.Marshal` of the decoded input (its error is discarded by the
source). -/
def contentLoop (enc : Option Jv → String) :
    Int → List AnthropicContent → String × List ToolCall
  | _, [] => ("", [])
  | i, c :: rest =>
    let tail := contentLoop enc (i + 1) rest
    match c.type with
    | "text" => (c.text ++ tail.1, tail.2)
    | "tool_use" =>
      (tail.1,
       { id := c.id, type := "function", index := i,
         function := { name := c.name, arguments := enc c.input } } :: tail.2)
    | _ => tail

/-- `(*anthropic).toProviderResponse`. -/
def toProviderResponse (enc : Option Jv → String)
    (resp : AnthropicMessageResponse) : ChatResponse :=
  let acc := contentLoop enc 0 resp.content
  { id := resp.id
    object := "chat.completion"
    model := resp.model
    choices := [{ index := 0
                  message := { role := roleAssistant
                               content := acc.1
                               toolCalls := acc.2 }
                  finishReason :=
                    if resp.stopReason = "tool_use" then "tool_calls"
                    else if resp.stopReason = "end_turn" then "stop"
                    else resp.stopReason }]
    usage := { promptTokens := resp.usage.inputTokens
               completionTokens := resp.usage.outputTokens
               totalTokens := resp.usage.inputTokens + resp.usage.outputTokens } }

/-- One scanned line as the anthropic stream goroutine distinguishes
it: no `data: ` framing, a data payload `json.Unmarshal` rejects
(skipped via `continue`), or a decoded `anthropicStreamEvent`. -/
inductive ALine where
  | noData
  | bad
  | ev (e : AnthropicStreamEvent)
  deriving DecidableEq

/-- Decoder state: `currentToolCallIndex` and the `toolCallIndices`
map (insert-at-front association list = Go map overwrite; the source
never reads it back). -/
structure AState where
  cnt : Int := 0
  tbl : List (String × Int) := []
  deriving DecidableEq

/-- One iteration of the anthropic stream goroutine loop (`none` state
= the goroutine returned, as it does after `message_stop`). -/
def aStep (s : AState) (l : ALine) : List StreamEvent × Option AState :=
  match l with
  | .noData => ([], some s)
  | .bad => ([], some s)
  | .ev e =>
    match e.type with
    | "content_block_delta" =>
      match e.delta with
      | some d =>
        match d.type with
        | "text_delta" =>
          ([{ delta := { content := d.text } }], some s)
        | "input_json_delta" =>
          match e.index with
          | some i =>
            ([{ delta := { toolCalls :=
                  [{ index := i, function := { arguments := d.partialJson } }] } }],
             some s)
          | none => ([], some s)
        | _ => ([], some s)
      | none => ([], some s)
    | "content_block_start" =>
      match e.contentBlock with
      | some cb =>
        if cb.type = "tool_use" then
          let idx := match e.index with
            | some i => i
            | none => s.cnt
          ([{ delta := { toolCalls :=
                [{ id := cb.id, type := "function", index := idx,
                   function := { name := cb.name } }] } }],
           some { cnt := s.cnt + 1, tbl := (cb.id, idx) :: s.tbl })
        else ([], some s)
      | none => ([], some s)
    | "message_stop" =>
      ([{ finishReason := "stop" }], none)
    | "message_delta" =>
      match e.delta with
      | some d =>
        if d.stopReason ≠ "" then
          ([{ finishReason :=
                if d.stopReason = "tool_use" then "tool_calls" else d.stopReason }],
           some s)
        else ([], some s)
      | none => ([], some s)
    | _ => ([], some s)

/-- Full event sequence of the anthropic stream decoder on a line
list, from the initial state. -/
def aDecode (ls : List ALine) : List StreamEvent :=
  Decode.runDecoder aStep {} ls

end Anthropic

namespace Spec

/-- A `StreamEvent` populates at most one of its three fields: no
non-empty delta together with a non-empty finish reason, and no error
at all alongside either. -/
def exclusiveEvent (e : Provider.StreamEvent) : Prop :=
  e.err = none ∧
  ¬((e.delta.content ≠ "" ∨ e.delta.toolCalls ≠ []) ∧ e.finishReason ≠ "")

instance (e : Provider.StreamEvent) : Decidable (exclusiveEvent e) := by
  unfold exclusiveEvent; infer_instance

/-- A concrete decode function that always fails (one admissible
behaviour of the opaque `json.Unmarshal` collaborator). -/
def parse0 : String → Option Provider.Jv := fun _ => none

/-- A concrete encode function (one admissible behaviour of the opaque
`json.Marshal` collaborator). -/
def enc0 : Option Provider.Jv → String := fun _ => "null"

/-- A `content_block_start` frame for a `tool_use` block, as a decoded
anthropic stream line. -/
def startLine (i : Option Int) (id name : String) : Anthropic.ALine :=
  .ev { type := "content_block_start", index := i,
        contentBlock := some { type := "tool_use", id := id, name := name } }

end Spec

/-- The `systemPrompt` accumulator of `toAnthropicRequest`'s message
loop is overwritten by every system-role message: it ends as the last
system message's content (or the starting value if none occurs). -/
theorem Anthropic.messagesLoop_system (parse : String → Option Provider.Jv)
    (ms : List Provider.Message) : ∀ (sys : String) (acc : List Anthropic.AnthropicMessage),
    (Anthropic.messagesLoop parse sys acc ms).1 =
      ms.foldl (fun s m => if m.role = Provider.roleSystem then m.content else s) sys := by
  induction ms with
  | nil => intro sys acc; rfl
  | cons m rest ih =>
    intro sys acc
    have hite : ∀ (b : Prop) (_ : Decidable b) (a1 a2 : List Anthropic.AnthropicMessage),
        (if b then Anthropic.messagesLoop parse sys a1 rest
         else Anthropic.messagesLoop parse sys a2 rest).1 =
          List.foldl (fun s m => if m.role = Provider.roleSystem then m.content else s)
            sys rest := by
      intro b inst a1 a2
      split
      · exact ih sys a1
      · exact ih sys a2
    simp only [Anthropic.messagesLoop, List.foldl_cons]
    split
    all_goals simp_all [Provider.roleSystem]

/-- After one `Recv` on an exhausted reader, the state again has no
pending events, and the result is the closed error. -/
theorem Provider.recv_empty (r : Provider.Reader) (hp : r.pending = []) :
    (Provider.recv r).1 = Provider.RecvResult.closed ∧ (Provider.recv r).2.pending = [] := by
  unfold Provider.recv
  by_cases hd : r.done
  · simp [hd, hp]
  · simp [hd, hp]

/-- C1: the spec's "exactly one of Delta, finishReason, error is
populated per event" fails for the openai stream decoder: a single wire
chunk carrying both a content delta and a finish reason is forwarded as
ONE event populating both fields. -/
theorem openai_event_both_delta_and_finish :
    Openai.oDecode [Openai.OLine.chunk
        { choices := [{ delta := { content := "hi" }, finishReason := "stop" }] }] =
      [{ delta := { content := "hi" }, finishReason := "stop" }] ∧
    ({ delta := { content := "hi" }, finishReason := "stop" } : Provider.StreamEvent).delta.content ≠ "" ∧
    ({ delta := { content := "hi" }, finishReason := "stop" } : Provider.StreamEvent).finishReason ≠ "" :=
  ⟨rfl, by decide, by decide⟩

/-- C1 (amended): every event emitted by the anthropic stream decoder
populates at most one of the three fields (its error field is never
populated at all); the openai and mistral decoders copy delta content
and finish reason from the same wire chunk into a single event, so for
them the mutual exclusion does not hold. -/
theorem anthropic_stream_event_exclusive :
    ∀ (ls : List Anthropic.ALine), ∀ e ∈ Anthropic.aDecode ls, Spec.exclusiveEvent e := by
  intro ls
  refine Decode.runDecoder_forall Anthropic.aStep Spec.exclusiveEvent ?_ {} ls
  intro s l e he
  cases l with
  | noData => simp [Anthropic.aStep] at he
  | bad => simp [Anthropic.aStep] at he
  | ev ev =>
    unfold Anthropic.aStep at he
    repeat' split at he
    all_goals simp_all [Spec.exclusiveEvent]

/-- Witness for `anthropic_stream_event_exclusive` at a concrete
one-line stream. -/
theorem anthropic_stream_event_exclusive_witness :
    Spec.exclusiveEvent ({ delta := { content := "hi" } } : Provider.StreamEvent) :=
  anthropic_stream_event_exclusive
    [Anthropic.ALine.ev { type := "content_block_delta",
                          delta := some { type := "text_delta", text := "hi" } }]
    { delta := { content := "hi" } } (by decide)

/-- C2: double `Close` is NOT safe for the ollama stream reader.
`StreamReader.Close` runs the stored hook unconditionally on every
call; the ollama hook is `close(done)`, and Go panics on closing an
already-closed channel (`none` below), while the other vendors' hook
`resp.Body.Close()` is a harmless no-op on repeat. -/
theorem ollama_double_close_panics :
    CloseHook.closeTwice CloseHook.ollamaCloseHook false = none ∧
    ∀ s : Bool, CloseHook.closeTwice CloseHook.bodyCloseHook s = some true :=
  ⟨rfl, fun _ => rfl⟩

/-- C3: with two system messages "a" then "b", the anthropic request
mapper puts the LAST one ("b") into the top-level system field, not the
first — the claim's "first system message wins" is false. -/
theorem anthropic_system_not_first :
    (Anthropic.toAnthropicRequest Spec.parse0
      { messages := [{ role := Provider.roleSystem, content := "a" },
                     { role := Provider.roleSystem, content := "b" }] } "m").system = "b" ∧
    (Anthropic.toAnthropicRequest Spec.parse0
      { messages := [{ role := Provider.roleSystem, content := "a" },
                     { role := Provider.roleSystem, content := "b" }] } "m").system ≠ "a" :=
  ⟨rfl, by decide⟩

/-- C3 (amended): the anthropic mapper's top-level system field holds
the content of the LAST system-role message of the request (empty
string if there is none); earlier system messages are overwritten. -/
theorem anthropic_system_last_wins :
    ∀ (parse : String → Option Provider.Jv) (req : Provider.ChatRequest) (model : String),
      (Anthropic.toAnthropicRequest parse req model).system =
        req.messages.foldl
          (fun s m => if m.role = Provider.roleSystem then m.content else s) "" := by
  intro parse req model
  exact Anthropic.messagesLoop_system parse req.messages "" []

/-- C4: the anthropic response mapper does NOT map the vendor's
max-token reason `"max_tokens"` to the unified `"length"`: it is passed
through verbatim. -/
theorem anthropic_max_tokens_passthrough :
    ((Anthropic.toProviderResponse Spec.enc0
        { stopReason := "max_tokens" }).choices.map (fun c => c.finishReason)) =
      ["max_tokens"] ∧
    (["max_tokens"] : List String) ≠ ["length"] :=
  ⟨rfl, by decide⟩

/-- C4 (amended): the anthropic finish-reason normalization maps only
`tool_use` → `tool_calls` and (in the response mapper) `end_turn` →
`stop`; every other vendor reason, including `max_tokens`, is passed
through verbatim, deterministically. The stream decoder applies the
same `tool_use` rewrite on `message_delta` and emits a literal `stop`
on `message_stop`. -/
theorem anthropic_finish_reason_mapping :
    ∀ (enc : Option Provider.Jv → String) (resp : Anthropic.AnthropicMessageResponse)
      (s : Anthropic.AState) (d : Anthropic.AnthropicDelta),
      ((Anthropic.toProviderResponse enc resp).choices.map (fun c => c.finishReason) =
        [if resp.stopReason = "tool_use" then "tool_calls"
         else if resp.stopReason = "end_turn" then "stop" else resp.stopReason]) ∧
      (Anthropic.aStep s (.ev { type := "message_delta", delta := some d }) =
        (if d.stopReason ≠ "" then
          ([{ finishReason :=
                if d.stopReason = "tool_use" then "tool_calls" else d.stopReason }], some s)
         else ([], some s))) ∧
      (Anthropic.aStep s (.ev { type := "message_stop" }) =
        ([{ finishReason := "stop" }], none)) := by
  intro enc resp s d
  exact ⟨rfl, rfl, rfl⟩

/-- C5: the anthropic stream decoder does NOT fail fast on a data line
whose payload does not decode into the vendor event schema: the line is
skipped silently (no error event) and processing continues with later
lines. -/
theorem anthropic_bad_payload_skipped :
    Anthropic.aDecode
      [Anthropic.ALine.bad,
       Anthropic.ALine.ev { type := "content_block_delta",
                            delta := some { type := "text_delta", text := "x" } }] =
      [{ delta := { content := "x" } }] ∧
    ({ delta := { content := "x" } } : Provider.StreamEvent).err = none :=
  ⟨rfl, rfl⟩

/-- C5 (amended): the openai and mistral decoders emit exactly one
terminal error event on an undecodable data payload and stop; the
anthropic decoder skips such a line silently and continues. Non-data
framing lines are skipped silently by all three. -/
theorem malformed_payload_behavior :
    ∀ (rest : List Openai.OLine) (mrest : List Mistral.MLine)
      (s : Anthropic.AState) (arest : List Anthropic.ALine),
      (Openai.oDecode (Openai.OLine.bad :: rest) =
        [{ err := some "failed to parse chunk" }]) ∧
      (Openai.oDecode (Openai.OLine.noData :: rest) = Openai.oDecode rest) ∧
      (Mistral.mDecode (Mistral.MLine.bad :: mrest) =
        [{ err := some "failed to parse chunk" }]) ∧
      (Mistral.mDecode (Mistral.MLine.noData :: mrest) = Mistral.mDecode mrest) ∧
      (Decode.runDecoder Anthropic.aStep s (Anthropic.ALine.bad :: arest) =
        Decode.runDecoder Anthropic.aStep s arest) ∧
      (Decode.runDecoder Anthropic.aStep s (Anthropic.ALine.noData :: arest) =
        Decode.runDecoder Anthropic.aStep s arest) := by
  intro rest mrest s arest
  exact ⟨rfl, rfl, rfl, rfl, rfl, rfl⟩

/-- C6: the openai response mapper copies `TotalTokens` verbatim from
the wire response, so a vendor response reporting prompt 1, completion
2, total 4 maps to a `Usage` violating `total = prompt + completion`. -/
theorem openai_usage_total_not_sum :
    (Openai.toProviderResponse
       { usage := { promptTokens := 1, completionTokens := 2, totalTokens := 4 } }).usage.totalTokens = 4 ∧
    (Openai.toProviderResponse
       { usage := { promptTokens := 1, completionTokens := 2, totalTokens := 4 } }).usage.promptTokens +
    (Openai.toProviderResponse
       { usage := { promptTokens := 1, completionTokens := 2, totalTokens := 4 } }).usage.completionTokens = 3 ∧
    (4 : Int) ≠ 3 :=
  ⟨rfl, rfl, by decide⟩

/-- C6 (amended): the anthropic mapper computes `totalTokens` as
prompt + completion by construction; the openai and mistral mappers
copy all three usage fields verbatim from the vendor response, so for
them the invariant holds only when the vendor reports it. -/
theorem usage_total_by_vendor :
    ∀ (enc : Option Provider.Jv → String) (aresp : Anthropic.AnthropicMessageResponse)
      (oresp : Openai.OpenaiChatCompletionResponse)
      (mresp : Mistral.MistralChatCompletionResponse),
      ((Anthropic.toProviderResponse enc aresp).usage.totalTokens =
        (Anthropic.toProviderResponse enc aresp).usage.promptTokens +
        (Anthropic.toProviderResponse enc aresp).usage.completionTokens) ∧
      ((Openai.toProviderResponse oresp).usage =
        { promptTokens := oresp.usage.promptTokens
          completionTokens := oresp.usage.completionTokens
          totalTokens := oresp.usage.totalTokens }) ∧
      ((Mistral.toProviderResponse mresp).usage =
        { promptTokens := mresp.usage.promptTokens
          completionTokens := mresp.usage.completionTokens
          totalTokens := mresp.usage.totalTokens }) := by
  intro enc aresp oresp mresp
  exact ⟨rfl, rfl, rfl⟩

/-- C7: the anthropic decoder reuses an index for a different tool
call when the vendor frames say so: two `tool_use` block starts with
distinct ids `"a"` and `"b"` but the same wire index 0 are both emitted
with index 0. -/
theorem anthropic_tool_call_index_reused :
    Anthropic.aDecode [Spec.startLine (some 0) "a" "f", Spec.startLine (some 0) "b" "g"] =
      [{ delta := { toolCalls := [{ id := "a", type := "function", index := 0,
                                    function := { name := "f" } }] } },
       { delta := { toolCalls := [{ id := "b", type := "function", index := 0,
                                    function := { name := "g" } }] } }] ∧
    ("a" : String) ≠ "b" :=
  ⟨rfl, by decide⟩

/-- C7 (amended): the anthropic decoder forwards the vendor-supplied
content-block index verbatim on every fragment (a block start lacking
an index falls back to the internal counter, which then increments);
the id→index table is written but never consulted, so fragments of one
call share an index, and indices are not reused, exactly when the
vendor labels frames consistently. -/
theorem anthropic_tool_call_index_forwarding :
    ∀ (s : Anthropic.AState) (i : Int) (id name frag : String),
      (Anthropic.aStep s (Spec.startLine (some i) id name) =
        ([{ delta := { toolCalls := [{ id := id, type := "function", index := i,
                                       function := { name := name } }] } }],
         some { cnt := s.cnt + 1, tbl := (id, i) :: s.tbl })) ∧
      (Anthropic.aStep s (Spec.startLine none id name) =
        ([{ delta := { toolCalls := [{ id := id, type := "function", index := s.cnt,
                                       function := { name := name } }] } }],
         some { cnt := s.cnt + 1, tbl := (id, s.cnt) :: s.tbl })) ∧
      (Anthropic.aStep s (.ev { type := "content_block_delta", index := some i,
                                delta := some { type := "input_json_delta",
                                                partialJson := frag } }) =
        ([{ delta := { toolCalls := [{ index := i,
                                       function := { arguments := frag } }] } }],
         some s)) := by
  intro s i id name frag
  exact ⟨rfl, rfl, rfl⟩

/-- C8: when `MaxTokens` is unset the anthropic request mapper writes
the hard default 8192 into the wire `max_tokens` field, and the
caller's value when set; the openai and mistral mappers copy the
optional field verbatim (absent when unset, never defaulted). -/
theorem max_tokens_default_per_vendor :
    ∀ (parse : String → Option Provider.Jv) (req : Provider.ChatRequest) (model : String),
      ((Anthropic.toAnthropicRequest parse req model).maxTokens =
        match req.maxTokens with
        | some v => v
        | none => 8192) ∧
      ((Openai.toOpenAIRequest req model).maxTokens = req.maxTokens) ∧
      ((Mistral.toMistralRequest req model).maxTokens = req.maxTokens) := by
  intro parse req model
  exact ⟨rfl, rfl, rfl⟩

/-- C9: once a reader's event source is exhausted, `Recv` returns the
sticky stream-closed error, and every later `Recv` (any number of
calls further on) keeps returning it. -/
theorem recv_closed_sticky :
    ∀ (r : Provider.Reader) (n : Nat), r.pending = [] →
      (Provider.recv (Provider.recvIter n r)).1 = Provider.RecvResult.closed := by
  intro r n
  induction n generalizing r with
  | zero => intro hp; exact (Provider.recv_empty r hp).1
  | succ n ih =>
    intro hp
    rw [Provider.recvIter]
    exact ih _ (Provider.recv_empty r hp).2

/-- Witness for `recv_closed_sticky`: a fresh reader over an exhausted
source keeps returning the closed outcome, three calls later. -/
theorem recv_closed_sticky_witness :
    ({ pending := [] } : Provider.Reader).pending = [] ∧
    (Provider.recv (Provider.recvIter 3 ({ pending := [] } : Provider.Reader))).1 =
      Provider.RecvResult.closed :=
  ⟨rfl, recv_closed_sticky { pending := [] } 3 rfl⟩

/-- C10: `ollama.WithAPIKey` discards the key and returns the provider
unchanged (the struct has no key field), so no configuration read by a
later call can depend on it. -/
theorem ollama_with_api_key_noop :
    ∀ (Client : Type) (key : String) (o : Ollama.OllamaProvider Client),
      Ollama.withAPIKey key o = o :=
  fun _ _ _ => rfl

